import Mathlib

/-!
Shallow embedding of the woody container runtime (Rust sources
`src/container.rs`, `src/cgroups.rs`, `src/lrng_cgroup.rs`, `src/main.rs`)
together with theorems settling the specification claims.

Filesystem state is modelled explicitly: a store of files (path components
to content) and a set of directories.  Every cgroup operation of
`lrng_cgroup.rs` is translated as a function over this state.  The child
and parent sides of the supervisor (`container.rs`) are translated as
event traces, so ordering claims become statements about indices in those
traces.  Machine integers are `Nat`/`Int` with explicit bounds where
overflow matters.
-/

deriving instance DecidableEq for Except

namespace Woody

/-- Error kinds mirroring the `std::io::ErrorKind` values this code uses,
plus `resourceBusy`, present in the kind vocabulary but unused by the
source. -/
inductive ErrorKind where
  | notFound
  | permissionDenied
  | invalidInput
  | resourceBusy
  | dirNotEmpty
  deriving DecidableEq, Repr

/-- Mirror of `std::io::Error`: a kind plus a message. -/
structure IOError where
  kind : ErrorKind
  msg : String
  deriving DecidableEq, Repr

/-- A filesystem path, as its list of components. -/
abbrev FPath := List String

/-- Filesystem state: file store (path to content) and the set of existing
directories. -/
structure FS where
  files : List (FPath × String)
  dirs : List FPath
  deriving DecidableEq, Repr

/-- Content of the file at path `p`, if the file exists. -/
def FS.fileContent? (fs : FS) (p : FPath) : Option String :=
  (fs.files.find? (fun e => e.1 == p)).map (fun e => e.2)

/-- Whether a directory exists at `p`. -/
def FS.dirExists (fs : FS) (p : FPath) : Bool :=
  fs.dirs.contains p

/-- Mirror of `Path::exists`: true when a file or a directory lives at `p`. -/
def FS.pathExists (fs : FS) (p : FPath) : Bool :=
  fs.dirExists p || (fs.fileContent? p).isSome

/-- Mirror of `std::fs::read_to_string`: the content of the file, or a
`NotFound` error. -/
def FS.readToString (fs : FS) (p : FPath) : Except IOError String :=
  match fs.fileContent? p with
  | some c => .ok c
  | none => .error ⟨.notFound, "No such file or directory"⟩

/-- Mirror of `std::fs::write`: creates or replaces the file when the
parent directory exists, else fails with `NotFound`. -/
def FS.writeFile (fs : FS) (p : FPath) (content : String) :
    Except IOError FS :=
  if fs.dirExists p.dropLast then
    .ok { fs with files := (p, content) :: fs.files.filter (fun e => e.1 ≠ p) }
  else
    .error ⟨.notFound, "No such file or directory"⟩

/-- The non-empty prefixes of a path, shortest first. -/
def pathPrefixes (p : FPath) : List FPath :=
  (List.range p.length).map (fun i => p.take (i + 1))

/-- Mirror of `std::fs::create_dir_all`: registers the directory and all of
its ancestors. -/
def FS.createDirAll (fs : FS) (p : FPath) : FS :=
  { fs with dirs := fs.dirs ++ (pathPrefixes p).filter (fun q => ¬ fs.dirs.contains q) }

/-- Mirror of `std::fs::remove_dir` against cgroupfs semantics: removing a
cgroup directory succeeds when it exists and has no child directory (the
virtual control files inside it do not block removal, so they are removed
with it); a missing directory is `NotFound`. -/
def FS.removeDir (fs : FS) (p : FPath) : Except IOError FS :=
  if fs.dirExists p then
    if fs.dirs.any (fun d => d ≠ p ∧ d.take p.length = p) then
      .error ⟨.dirNotEmpty, "Directory not empty"⟩
    else
      .ok { files := fs.files.filter (fun e => ¬ e.1.take p.length = p),
            dirs := fs.dirs.filter (fun d => d ≠ p) }
  else
    .error ⟨.notFound, "No such file or directory"⟩

/-- Digits of a decimal numeral read into a `Nat`; `none` when the string
is empty or holds a non-digit. -/
def digitsToNat? (cs : List Char) : Option Nat :=
  if cs = [] then none
  else if cs.all Char.isDigit then
    some (cs.foldl (fun a c => a * 10 + (c.toNat - 48)) 0)
  else none

/-- Mirror of Rust unsigned `str::parse`: optional leading plus sign, one
or more digits, value below `bound` (`2 ^ 32` for `u32`, `2 ^ 64` for
`u64`). -/
def parseUnsigned? (bound : Nat) (s : String) : Option Nat :=
  let cs := match s.data with
    | List.cons c rest => if c = Char.ofNat 43 then rest else s.data
    | [] => []
  match digitsToNat? cs with
  | some n => if n < bound then some n else none
  | none => none

/-- Mirror of `str::parse::<u32>` on a string. -/
def parseU32? (s : String) : Option Nat := parseUnsigned? (2 ^ 32) s

/-- Mirror of `str::parse::<u64>` on a string. -/
def parseU64? (s : String) : Option Nat := parseUnsigned? (2 ^ 64) s

/-- Mirror of `str::parse::<i64>`: optional sign, digits, value within the
signed 64-bit range. -/
def parseI64? (s : String) : Option Int :=
  match s.data with
  | List.cons c rest =>
      if c = Char.ofNat 45 then
        match digitsToNat? rest with
        | some n => if n ≤ 2 ^ 63 then some (-(n : Int)) else none
        | none => none
      else if c = Char.ofNat 43 then
        match digitsToNat? rest with
        | some n => if n < 2 ^ 63 then some (n : Int) else none
        | none => none
      else
        match digitsToNat? s.data with
        | some n => if n < 2 ^ 63 then some (n : Int) else none
        | none => none
  | [] => none

/-- Character-level splitter: cuts the list at every character satisfying
`p`, keeping empty segments. -/
def splitOnPred (p : Char → Bool) : List Char → List (List Char)
  | [] => [[]]
  | List.cons x rest =>
      let r := splitOnPred p rest
      if p x then List.cons [] r
      else
        match r with
        | [] => [[x]]
        | List.cons h t => List.cons (List.cons x h) t

/-- Mirror of `str::trim`: strip whitespace from both ends. -/
def rustTrim (s : String) : String :=
  String.mk (((s.data.dropWhile Char.isWhitespace).reverse.dropWhile
    Char.isWhitespace).reverse)

/-- Mirror of `str::lines`: split on newline, ignoring a final line
terminator.  The callers below trim each line afterwards, which also
covers carriage returns. -/
def rustLines (s : String) : List String :=
  let parts := (splitOnPred (fun ch => ch = Char.ofNat 10) s.data).map String.mk
  match parts.reverse with
  | [] => []
  | List.cons last revInit =>
      if last = "" then revInit.reverse else (List.cons last revInit).reverse

/-- Cut a character list at the first occurrence of `c`; `none` when `c`
does not occur. -/
def splitOnceChar? (c : Char) : List Char → Option (List Char × List Char)
  | [] => none
  | List.cons x rest =>
      if x = c then some ([], rest)
      else
        match splitOnceChar? c rest with
        | some (l, r) => some (List.cons x l, r)
        | none => none

/-- Mirror of `str::split_once(' ')`: key before the first space, remainder
after it. -/
def splitOnceSpace? (line : String) : Option (String × String) :=
  match splitOnceChar? (Char.ofNat 32) line.data with
  | some (l, r) => some (String.mk l, String.mk r)
  | none => none

/-- Mirror of `str::split_whitespace`: maximal non-whitespace chunks. -/
def splitWhitespace (s : String) : List String :=
  ((splitOnPred Char.isWhitespace s.data).filter (fun t => t ≠ [])).map String.mk

/-- Cgroup protocol version, `lrng_cgroup.rs` `CgroupVersion`. -/
inductive CgroupVersion where
  | V1
  | V2
  deriving DecidableEq, Repr

/-- Cgroup controllers, `lrng_cgroup.rs` `Controller`. -/
inductive Controller where
  | Memory
  | Cpu
  | CpuSet
  | BlkIo
  | Devices
  | Freezer
  | NetCls
  deriving DecidableEq, Repr

/-- Mirror of `Controller::as_str`. -/
def Controller.asStr : Controller → String
  | .Memory => "memory"
  | .Cpu => "cpu"
  | .CpuSet => "cpuset"
  | .BlkIo => "blkio"
  | .Devices => "devices"
  | .Freezer => "freezer"
  | .NetCls => "net_cls"

/-- Mirror of `lrng_cgroup.rs` `CgroupManager`. -/
structure CgroupManager where
  cgroup_root : FPath
  cgroup_version : CgroupVersion
  deriving DecidableEq, Repr

/-- Mirror of `lrng_cgroup.rs` `Cgroup`. -/
structure Cgroup where
  name : String
  path : FPath
  manager : CgroupManager
  deriving DecidableEq, Repr

/-- Mirror of `CgroupManager::with_root` (and of `CgroupManager::new`, which
is the same probe against the fixed root `/sys/fs/cgroup`): V2 exactly when
`cgroup.controllers` exists directly under the root.  The Rust function
wraps the result in `Ok` unconditionally, so the embedding returns the
manager directly. -/
def CgroupManager.with_root (fs : FS) (root : FPath) : CgroupManager :=
  { cgroup_root := root,
    cgroup_version :=
      if fs.pathExists (root ++ ["cgroup.controllers"]) then .V2 else .V1 }

/-- Mirror of `CgroupManager::create_cgroup_v1`: one directory per
controller under that controller's hierarchy, handle anchored at the first
controller's path; empty list is `InvalidInput`. -/
def CgroupManager.create_cgroup_v1 (mgr : CgroupManager) (fs : FS)
    (name : String) (controllers : List Controller) :
    Except IOError (Cgroup × FS) :=
  let fs1 := controllers.foldl
    (fun f c => f.createDirAll (mgr.cgroup_root ++ [c.asStr, name])) fs
  match controllers with
  | [] => .error ⟨.invalidInput, "At least one controller required for v1"⟩
  | List.cons c0 _ =>
      .ok ({ name := name, path := mgr.cgroup_root ++ [c0.asStr, name],
             manager := mgr }, fs1)

/-- Mirror of `CgroupManager::create_cgroup_v2`: one directory under the
unified root; when the controller list is non-empty, a space-separated
plus-token list is written to that group's `cgroup.subtree_control`. -/
def CgroupManager.create_cgroup_v2 (mgr : CgroupManager) (fs : FS)
    (name : String) (controllers : List Controller) :
    Except IOError (Cgroup × FS) :=
  let cgroup_path := mgr.cgroup_root ++ [name]
  let fs1 := fs.createDirAll cgroup_path
  let written : Except IOError FS :=
    if controllers.isEmpty then .ok fs1
    else
      let controllers_str :=
        String.intercalate " " (controllers.map (fun c => "+" ++ c.asStr))
      fs1.writeFile (cgroup_path ++ ["cgroup.subtree_control"]) controllers_str
  match written with
  | .error e => .error e
  | .ok fs2 => .ok ({ name := name, path := cgroup_path, manager := mgr }, fs2)

/-- Mirror of `CgroupManager::create_cgroup`: dispatch on the detected
version. -/
def CgroupManager.create_cgroup (mgr : CgroupManager) (fs : FS)
    (name : String) (controllers : List Controller) :
    Except IOError (Cgroup × FS) :=
  match mgr.cgroup_version with
  | .V1 => mgr.create_cgroup_v1 fs name controllers
  | .V2 => mgr.create_cgroup_v2 fs name controllers

/-- Mirror of `Cgroup::add_process`: writes the decimal PID into
`cgroup.procs` (the source matches on the version but both arms name the
same file). -/
def Cgroup.add_process (cg : Cgroup) (fs : FS) (pid : Nat) :
    Except IOError FS :=
  fs.writeFile (cg.path ++ ["cgroup.procs"]) (toString pid)

/-- The loop body of `Cgroup::get_processes`: collect every line whose
trimmed form parses as a `u32`, skipping the rest. -/
def pidsOfContent (content : String) : List Nat :=
  (rustLines content).foldl
    (fun acc line =>
      match parseU32? (rustTrim line) with
      | some pid => acc ++ [pid]
      | none => acc) []

/-- Mirror of `Cgroup::get_processes`. -/
def Cgroup.get_processes (cg : Cgroup) (fs : FS) :
    Except IOError (List Nat) :=
  match fs.readToString (cg.path ++ ["cgroup.procs"]) with
  | .error e => .error e
  | .ok content => .ok (pidsOfContent content)

/-- Mirror of `Cgroup::get_controller_path`: V1 resolves under the
controller hierarchy, V2 returns the handle path; both arms of the source
return `Ok`, and the `Result` wrapper is kept because callers apply `?` to
it. -/
def Cgroup.get_controller_path (cg : Cgroup) (c : Controller) :
    Except IOError FPath :=
  match cg.manager.cgroup_version with
  | .V1 => .ok (cg.manager.cgroup_root ++ [c.asStr, cg.name])
  | .V2 => .ok cg.path

/-- Mirror of `Cgroup::set_memory_limit`. -/
def Cgroup.set_memory_limit (cg : Cgroup) (fs : FS) (limit_bytes : Nat) :
    Except IOError FS :=
  match cg.manager.cgroup_version with
  | .V1 =>
      match cg.get_controller_path .Memory with
      | .error e => .error e
      | .ok p => fs.writeFile (p ++ ["memory.limit_in_bytes"]) (toString limit_bytes)
  | .V2 => fs.writeFile (cg.path ++ ["memory.max"]) (toString limit_bytes)

/-- Conversion inlined in `Cgroup::set_cpu_shares` for V2:
`(shares * 100) / 1024` in `u64` arithmetic, the wrap-around made
explicit. -/
def shares_to_weight (shares : Nat) : Nat :=
  shares * 100 % 2 ^ 64 / 1024

/-- Conversion inlined in `Cgroup::get_cpu_stats_v2`:
`(weight * 1024) / 100` in `u64` arithmetic, the wrap-around made
explicit. -/
def weight_to_shares (weight : Nat) : Nat :=
  weight * 1024 % 2 ^ 64 / 100

/-- Mirror of `Cgroup::set_cpu_shares`: V1 writes the unconverted value to
`cpu.shares`, V2 writes the converted weight to `cpu.weight`. -/
def Cgroup.set_cpu_shares (cg : Cgroup) (fs : FS) (shares : Nat) :
    Except IOError FS :=
  match cg.manager.cgroup_version with
  | .V1 =>
      match cg.get_controller_path .Cpu with
      | .error e => .error e
      | .ok p => fs.writeFile (p ++ ["cpu.shares"]) (toString shares)
  | .V2 =>
      fs.writeFile (cg.path ++ ["cpu.weight"]) (toString (shares_to_weight shares))

/-- Mirror of `Cgroup::set_cpu_quota`: V1 writes quota then period to the
two cfs files; V2 writes either the literal `max` or
`quota period` to `cpu.max`. -/
def Cgroup.set_cpu_quota (cg : Cgroup) (fs : FS) (quota_us : Int)
    (period_us : Nat) : Except IOError FS :=
  match cg.manager.cgroup_version with
  | .V1 =>
      match cg.get_controller_path .Cpu with
      | .error e => .error e
      | .ok cpu_path =>
          match fs.writeFile (cpu_path ++ ["cpu.cfs_quota_us"]) (toString quota_us) with
          | .error e => .error e
          | .ok fs1 =>
              fs1.writeFile (cpu_path ++ ["cpu.cfs_period_us"]) (toString period_us)
  | .V2 =>
      let quota_str :=
        if quota_us < 0 then "max"
        else toString quota_us ++ " " ++ toString period_us
      fs.writeFile (cg.path ++ ["cpu.max"]) quota_str

/-- Mirror of `lrng_cgroup.rs` `MemoryStats` with its `Default`. -/
structure MemoryStats where
  limit_in_bytes : Option Nat := none
  usage_in_bytes : Nat := 0
  max_usage_in_bytes : Nat := 0
  failcnt : Nat := 0
  deriving DecidableEq, Repr

/-- Mirror of `lrng_cgroup.rs` `CpuStats` with its `Default`. -/
structure CpuStats where
  shares : Option Nat := none
  quota : Option Int := none
  period : Option Nat := none
  usage_ns : Nat := 0
  deriving DecidableEq, Repr

/-- Mirror of `Cgroup::get_memory_stats_v1`: four best-effort reads, each
updating its field only when the file reads and parses. -/
def Cgroup.get_memory_stats_v1 (cg : Cgroup) (fs : FS) :
    Except IOError MemoryStats :=
  match cg.get_controller_path .Memory with
  | .error e => .error e
  | .ok mem_path =>
    let stats : MemoryStats := {}
    let stats :=
      match fs.readToString (mem_path ++ ["memory.limit_in_bytes"]) with
      | .ok content =>
          match parseU64? (rustTrim content) with
          | some limit => { stats with limit_in_bytes := some limit }
          | none => stats
      | .error _ => stats
    let stats :=
      match fs.readToString (mem_path ++ ["memory.usage_in_bytes"]) with
      | .ok content =>
          match parseU64? (rustTrim content) with
          | some usage => { stats with usage_in_bytes := usage }
          | none => stats
      | .error _ => stats
    let stats :=
      match fs.readToString (mem_path ++ ["memory.max_usage_in_bytes"]) with
      | .ok content =>
          match parseU64? (rustTrim content) with
          | some max_usage => { stats with max_usage_in_bytes := max_usage }
          | none => stats
      | .error _ => stats
    let stats :=
      match fs.readToString (mem_path ++ ["memory.failcnt"]) with
      | .ok content =>
          match parseU64? (rustTrim content) with
          | some failcnt => { stats with failcnt := failcnt }
          | none => stats
      | .error _ => stats
    .ok stats

/-- The `memory.stat` line loop of `Cgroup::get_memory_stats_v2`: an
`oom_kill` line whose value parses updates `failcnt`. -/
def memoryStatLines (content : String) (stats : MemoryStats) : MemoryStats :=
  (rustLines content).foldl
    (fun st line =>
      match splitOnceSpace? line with
      | some (key, value) =>
          if key = "oom_kill" then
            match parseU64? value with
            | some count => { st with failcnt := count }
            | none => st
          else st
      | none => st) stats

/-- Mirror of `Cgroup::get_memory_stats_v2`. -/
def Cgroup.get_memory_stats_v2 (cg : Cgroup) (fs : FS) :
    Except IOError MemoryStats :=
  let stats : MemoryStats := {}
  let stats :=
    match fs.readToString (cg.path ++ ["memory.max"]) with
    | .ok content =>
        let limit_str := (rustTrim content)
        if limit_str ≠ "max" then
          match parseU64? limit_str with
          | some limit => { stats with limit_in_bytes := some limit }
          | none => stats
        else stats
    | .error _ => stats
  let stats :=
    match fs.readToString (cg.path ++ ["memory.current"]) with
    | .ok content =>
        match parseU64? (rustTrim content) with
        | some usage => { stats with usage_in_bytes := usage }
        | none => stats
    | .error _ => stats
  let stats :=
    match fs.readToString (cg.path ++ ["memory.stat"]) with
    | .ok content => memoryStatLines content stats
    | .error _ => stats
  .ok stats

/-- Mirror of `Cgroup::get_memory_stats`. -/
def Cgroup.get_memory_stats (cg : Cgroup) (fs : FS) :
    Except IOError MemoryStats :=
  match cg.manager.cgroup_version with
  | .V1 => cg.get_memory_stats_v1 fs
  | .V2 => cg.get_memory_stats_v2 fs

/-- Mirror of `Cgroup::get_cpu_stats_v1`. -/
def Cgroup.get_cpu_stats_v1 (cg : Cgroup) (fs : FS) :
    Except IOError CpuStats :=
  match cg.get_controller_path .Cpu with
  | .error e => .error e
  | .ok cpu_path =>
    let stats : CpuStats := {}
    let stats :=
      match fs.readToString (cpu_path ++ ["cpu.shares"]) with
      | .ok content =>
          match parseU64? (rustTrim content) with
          | some shares => { stats with shares := some shares }
          | none => stats
      | .error _ => stats
    let stats :=
      match fs.readToString (cpu_path ++ ["cpu.cfs_quota_us"]) with
      | .ok content =>
          match parseI64? (rustTrim content) with
          | some quota => { stats with quota := some quota }
          | none => stats
      | .error _ => stats
    let stats :=
      match fs.readToString (cpu_path ++ ["cpu.cfs_period_us"]) with
      | .ok content =>
          match parseU64? (rustTrim content) with
          | some period => { stats with period := some period }
          | none => stats
      | .error _ => stats
    let stats :=
      match fs.readToString (cpu_path ++ ["cpuacct.usage"]) with
      | .ok content =>
          match parseU64? (rustTrim content) with
          | some usage => { stats with usage_ns := usage }
          | none => stats
      | .error _ => stats
    .ok stats

/-- The `cpu.max` parse of `Cgroup::get_cpu_stats_v2`: exactly two
whitespace-separated parts; a first part other than `max` that parses as
`i64` gives the quota, a second part that parses as `u64` gives the
period. -/
def cpuMaxParts (content : String) (stats : CpuStats) : CpuStats :=
  match splitWhitespace (rustTrim content) with
  | [p0, p1] =>
      let stats :=
        if p0 ≠ "max" then
          match parseI64? p0 with
          | some quota => { stats with quota := some quota }
          | none => stats
        else stats
      match parseU64? p1 with
      | some period => { stats with period := some period }
      | none => stats
  | _ => stats

/-- The `cpu.stat` line loop of `Cgroup::get_cpu_stats_v2`: a `usage_usec`
line whose value parses sets `usage_ns` to the microsecond value times
1000 in `u64` arithmetic. -/
def cpuStatLines (content : String) (stats : CpuStats) : CpuStats :=
  (rustLines content).foldl
    (fun st line =>
      match splitOnceSpace? line with
      | some (key, value) =>
          if key = "usage_usec" then
            match parseU64? value with
            | some usage_us => { st with usage_ns := usage_us * 1000 % 2 ^ 64 }
            | none => st
          else st
      | none => st) stats

/-- Mirror of `Cgroup::get_cpu_stats_v2`. -/
def Cgroup.get_cpu_stats_v2 (cg : Cgroup) (fs : FS) :
    Except IOError CpuStats :=
  let stats : CpuStats := {}
  let stats :=
    match fs.readToString (cg.path ++ ["cpu.weight"]) with
    | .ok content =>
        match parseU64? (rustTrim content) with
        | some weight => { stats with shares := some (weight_to_shares weight) }
        | none => stats
    | .error _ => stats
  let stats :=
    match fs.readToString (cg.path ++ ["cpu.max"]) with
    | .ok content => cpuMaxParts content stats
    | .error _ => stats
  let stats :=
    match fs.readToString (cg.path ++ ["cpu.stat"]) with
    | .ok content => cpuStatLines content stats
    | .error _ => stats
  .ok stats

/-- Mirror of `Cgroup::get_cpu_stats`. -/
def Cgroup.get_cpu_stats (cg : Cgroup) (fs : FS) : Except IOError CpuStats :=
  match cg.manager.cgroup_version with
  | .V1 => cg.get_cpu_stats_v1 fs
  | .V2 => cg.get_cpu_stats_v2 fs

/-- The fixed controller list hard-coded in the V1 arm of
`Cgroup::delete` (`net_cls` is absent from it). -/
def deleteControllers : List Controller :=
  [.Memory, .Cpu, .CpuSet, .BlkIo, .Devices, .Freezer]

/-- The V1 removal loop of `Cgroup::delete`: remove the group directory
under each listed controller when it exists, aborting on the first
failure (the state reached so far is kept, as in the source). -/
def deleteV1Loop (root : FPath) (name : String) (cs : List Controller)
    (fs : FS) : Except IOError Unit × FS :=
  match cs with
  | [] => (.ok (), fs)
  | List.cons c rest =>
      let controller_path := root ++ [c.asStr, name]
      if fs.pathExists controller_path then
        match fs.removeDir controller_path with
        | .ok fs1 => deleteV1Loop root name rest fs1
        | .error e => (.error e, fs)
      else deleteV1Loop root name rest fs

/-- Mirror of `Cgroup::delete`: refuse (returning the untouched state)
when the parsed membership list is non-empty, else remove the backing
directories. -/
def Cgroup.delete (cg : Cgroup) (fs : FS) : Except IOError Unit × FS :=
  match cg.get_processes fs with
  | .error e => (.error e, fs)
  | .ok procs =>
      if procs ≠ [] then
        (.error ⟨.permissionDenied, "Cannot delete cgroup with active processes"⟩, fs)
      else
        match cg.manager.cgroup_version with
        | .V1 => deleteV1Loop cg.manager.cgroup_root cg.name deleteControllers fs
        | .V2 =>
            match fs.removeDir cg.path with
            | .ok fs1 => (.ok (), fs1)
            | .error e => (.error e, fs)

/-- Mount flags used by the sources (`nix::mount::MsFlags`). -/
inductive MsFlag where
  | MS_PRIVATE
  | MS_REC
  | MS_BIND
  | MS_NOSUID
  | MS_NODEV
  | MS_NOEXEC
  deriving DecidableEq, Repr

/-- One `mount(2)` call: source, target, filesystem type, flags, data. -/
structure MountStep where
  source : Option String := none
  target : String
  fstype : Option String := none
  flags : List MsFlag := []
  data : Option String := none
  deriving DecidableEq, Repr

/-- The twelve mount calls of `Container::mount_essential_fs`
(`container.rs`), in source order.  The directory creations interleaved in
the source do not issue mounts and are omitted from the plan. -/
def mount_essential_fs : List MountStep :=
  [ { target := "./proc", fstype := some "proc" },
    { target := "./sys", fstype := some "sysfs" },
    { target := "./dev", fstype := some "tmpfs", data := some "mode=0755,size=65536k" },
    { target := "./tmp", fstype := some "tmpfs" },
    { source := some "/bin", target := "./bin", flags := [.MS_BIND] },
    { source := some "/usr/bin", target := "./usr/bin", flags := [.MS_BIND] },
    { source := some "/lib", target := "./lib", flags := [.MS_BIND] },
    { source := some "/lib64", target := "./lib64", flags := [.MS_BIND] },
    { source := some "/usr/lib", target := "./usr/lib", flags := [.MS_BIND] },
    { source := some "/usr/lib64", target := "./usr/lib64", flags := [.MS_BIND] },
    { target := "./dev/pts", fstype := some "devpts",
      flags := [.MS_NOEXEC, .MS_NOSUID, .MS_NODEV],
      data := some "newinstance,ptmxmode=0666,gid=5" },
    { target := "./dev/shm", fstype := some "tmpfs", data := some "mode=1777" } ]

/-- The mount calls issued by `mount_fs` in `main.rs`: only the overlay
mount executes — the `MS_REC | MS_PRIVATE` remount of `/` present in the
source is commented out. -/
def mount_fs_plan (container_id : String) : List MountStep :=
  [ { source := some "overlay",
      target := "./woody-image/" ++ container_id ++ "/merged",
      fstype := some "overlay",
      data := some ("lowerdir=./woody-image/" ++ container_id ++
        "/rootfs,upperdir=./woody-image/" ++ container_id ++
        "/upper,workdir=./woody-image/" ++ container_id ++ "/work") } ]

/-- Events of the child side of `Container::run` (`container.rs`). -/
inductive CEvent where
  | joinCgroup
  | unshareNS
  | createDir (d : String)
  | setCurrentDir (d : String)
  | mountStep (m : MountStep)
  | chrootCall (dir : String)
  | setHostname (h : String)
  | execCmd
  deriving DecidableEq, Repr

/-- Trace of `Container::setup_filesystem`: create and enter the rootfs,
run the essential mounts, then chroot to `"."`. -/
def setup_filesystem (rootfs : String) : List CEvent :=
  [.createDir rootfs, .setCurrentDir rootfs] ++
    mount_essential_fs.map CEvent.mountStep ++ [.chrootCall "."]

/-- Trace of `Container::setup_container`: one combined unshare of the
PID, mount, UTS, IPC and network namespaces, then the filesystem jail,
then the hostname. -/
def setup_container (rootfs : String) : List CEvent :=
  List.cons CEvent.unshareNS (setup_filesystem rootfs) ++
    [.setHostname "woody_container"]

/-- Trace of the `ForkResult::Child` arm of `Container::run`: the child
writes its own PID into `cgroup.procs` first, then runs
`setup_container`, then execs. -/
def childRun (rootfs : String) : List CEvent :=
  List.cons CEvent.joinCgroup (setup_container rootfs) ++ [.execCmd]

/-- Recognizers for the child-side event kinds. -/
def CEvent.isJoin : CEvent → Bool
  | .joinCgroup => true
  | _ => false

def CEvent.isUnshare : CEvent → Bool
  | .unshareNS => true
  | _ => false

def CEvent.isMount : CEvent → Bool
  | .mountStep _ => true
  | _ => false

def CEvent.isChroot : CEvent → Bool
  | .chrootCall _ => true
  | _ => false

def CEvent.isHostname : CEvent → Bool
  | .setHostname _ => true
  | _ => false

def CEvent.isExec : CEvent → Bool
  | .execCmd => true
  | _ => false

/-- Events of the parent side of `Container::run` (`container.rs`). -/
inductive PEvent where
  | createCgroupDir (path : String)
  | setMemLimit (path : String) (bytes : Nat)
  | attachPid (pid : Nat)
  | waitOnChild
  | deleteCgroupDir (path : String)
  deriving DecidableEq, Repr

/-- Mirror of `cgroups.rs` `CgroupManager::new`: the backing path of the
cgroup named by `id`. -/
def cgroupPathOf (id : String) : String :=
  "/sys/fs/cgroup/woody/" ++ id

/-- Trace of the `ForkResult::Parent` arm of `Container::run`: build a
second `CgroupManager` named after the parent's own PID, create its
directory, set a 200-byte memory limit on it, and block on `waitpid`.
The wait status is discarded, no PID is attached, and nothing is
deleted. -/
def parentRun (ppid : Nat) : List PEvent :=
  [ .createCgroupDir (cgroupPathOf (toString ppid)),
    .setMemLimit (cgroupPathOf (toString ppid)) 200,
    .waitOnChild ]

/-- Recognizers for the parent-side event kinds. -/
def PEvent.isAttach : PEvent → Bool
  | .attachPid _ => true
  | _ => false

def PEvent.isDelete : PEvent → Bool
  | .deleteCgroupDir _ => true
  | _ => false

def PEvent.isCreate : PEvent → Bool
  | .createCgroupDir _ => true
  | _ => false

def PEvent.isWait : PEvent → Bool
  | .waitOnChild => true
  | _ => false

/-! Concrete filesystem fixtures used to instantiate the theorems. -/

/-- The standard cgroup mount root, as components. -/
def exRoot : FPath := ["sys", "fs", "cgroup"]

/-- A V1 manager over the standard root. -/
def exMgrV1 : CgroupManager := { cgroup_root := exRoot, cgroup_version := .V1 }

/-- A V2 manager over the standard root. -/
def exMgrV2 : CgroupManager := { cgroup_root := exRoot, cgroup_version := .V2 }

/-- A V2 cgroup handle named `grp`. -/
def exCgV2 : Cgroup :=
  { name := "grp", path := exRoot ++ ["grp"], manager := exMgrV2 }

/-- Ancestor directories of the cgroup root. -/
def exBaseDirs : List FPath := [["sys"], ["sys", "fs"], exRoot]

/-- A state where `grp` holds one member process (PID 42). -/
def exFsBusy : FS :=
  { files := [(exRoot ++ ["grp", "cgroup.procs"], "42\n")],
    dirs := exBaseDirs ++ [exRoot ++ ["grp"]] }

/-- A state where the membership file of `grp` is empty. -/
def exFsIdle : FS :=
  { files := [(exRoot ++ ["grp", "cgroup.procs"], "")],
    dirs := exBaseDirs ++ [exRoot ++ ["grp"]] }

/-- A state where the membership file of `grp` holds only unparsable
text. -/
def exFsGarbage : FS :=
  { files := [(exRoot ++ ["grp", "cgroup.procs"], "garbage\nxyz\n")],
    dirs := exBaseDirs ++ [exRoot ++ ["grp"]] }

/-- A V1 cgroup handle created with the `net_cls` controller. -/
def exCgNet : Cgroup :=
  { name := "g", path := exRoot ++ ["net_cls", "g"], manager := exMgrV1 }

/-- A state backing `exCgNet` with empty membership. -/
def exFsNet : FS :=
  { files := [(exRoot ++ ["net_cls", "g", "cgroup.procs"], "")],
    dirs := exBaseDirs ++ [exRoot ++ ["net_cls"], exRoot ++ ["net_cls", "g"]] }

/-- A V1 cgroup handle created with memory and cpu controllers. -/
def exCgV1 : Cgroup :=
  { name := "g", path := exRoot ++ ["memory", "g"], manager := exMgrV1 }

/-- A state backing `exCgV1` with empty membership. -/
def exFsV1 : FS :=
  { files := [(exRoot ++ ["memory", "g", "cgroup.procs"], "")],
    dirs := exBaseDirs ++ [exRoot ++ ["memory"], exRoot ++ ["memory", "g"],
      exRoot ++ ["cpu"], exRoot ++ ["cpu", "g"]] }

/-- A state where `grp` has `cpu.weight` content `200`. -/
def exFsWeight : FS :=
  { files := [(exRoot ++ ["grp", "cpu.weight"], "200")],
    dirs := exBaseDirs ++ [exRoot ++ ["grp"]] }

/-- A state carrying the unified-hierarchy marker file directly under the
root. -/
def exFsMarker : FS :=
  { files := [(exRoot ++ ["cgroup.controllers"], "cpu memory pids")],
    dirs := exBaseDirs }

/-- The state produced by a V1 `set_cpu_quota` run on `exFsV1` with quota
`-1` and period `100000` (the error arm is unreachable there). -/
def exFsQuota : FS :=
  match exCgV1.set_cpu_quota exFsV1 (-1) 100000 with
  | .ok f => f
  | .error _ => exFsV1

/-! Helper lemmas about the filesystem model. -/

theorem find?_filter_ne (files : List (FPath × String)) (p q : FPath)
    (hne : q ≠ p) :
    (files.filter (fun e => e.1 ≠ p)).find? (fun e => e.1 == q) =
      files.find? (fun e => e.1 == q) := by
  rw [List.find?_filter]
  congr 1
  funext a
  by_cases h2 : a.1 = q
  · have h1 : a.1 ≠ p := by
      rw [h2]
      exact hne
    simp [h1, h2]
    exact hne
  · simp [h2]

theorem writeFile_ok_content {fs fs1 : FS} {p : FPath} {c : String}
    (h : fs.writeFile p c = .ok fs1) : fs1.fileContent? p = some c := by
  unfold FS.writeFile at h
  split at h
  · injection h with h
    subst h
    simp [FS.fileContent?, List.find?]
  · exact absurd h (by simp)

theorem writeFile_ok_content_other {fs fs1 : FS} {p q : FPath} {c : String}
    (hne : q ≠ p) (h : fs.writeFile p c = .ok fs1) :
    fs1.fileContent? q = fs.fileContent? q := by
  unfold FS.writeFile at h
  split at h
  · injection h with h
    subst h
    have hq : ¬(fun (e : FPath × String) => e.1 == q) (p, c) = true := by
      simp
      exact fun hh => hne hh.symm
    simp only [FS.fileContent?]
    rw [@List.find?_cons_of_neg _ (fun (e : FPath × String) => e.1 == q) (p, c) _ hq,
      find?_filter_ne fs.files p q hne]
  · exact absurd h (by simp)

theorem writeFile_ok_dirs {fs fs1 : FS} {p : FPath} {c : String}
    (h : fs.writeFile p c = .ok fs1) : fs1.dirs = fs.dirs := by
  unfold FS.writeFile at h
  split at h
  · injection h with h
    subst h
    rfl
  · exact absurd h (by simp)

theorem removeDir_ok_not_dirExists {fs fs1 : FS} {p : FPath}
    (h : fs.removeDir p = .ok fs1) : fs1.dirExists p = false := by
  unfold FS.removeDir at h
  split at h
  · split at h
    · exact absurd h (by simp)
    · injection h with h
      subst h
      simp [FS.dirExists, List.elem_iff, List.mem_filter]
  · exact absurd h (by simp)

theorem createDirAll_files (fs : FS) (p : FPath) :
    (fs.createDirAll p).files = fs.files := rfl

theorem createDirAll_mono {fs : FS} {q : FPath} (p : FPath)
    (h : fs.dirExists q = true) : (fs.createDirAll p).dirExists q = true := by
  simp only [FS.createDirAll, FS.dirExists, List.elem_iff, List.mem_append] at h ⊢
  exact Or.inl h

theorem createDirAll_self {p : FPath} (fs : FS) (h : p ≠ []) :
    (fs.createDirAll p).dirExists p = true := by
  by_cases hc : fs.dirs.contains p
  · exact createDirAll_mono p hc
  · have hmem : p ∈ pathPrefixes p := by
      have hlen : 0 < p.length := List.length_pos.mpr h
      unfold pathPrefixes
      refine List.mem_map.mpr ⟨p.length - 1, ?_, ?_⟩
      · exact List.mem_range.mpr (by omega)
      · rw [Nat.sub_add_cancel hlen]
        exact List.take_length p
    simp only [FS.createDirAll, FS.dirExists, List.elem_iff, List.mem_append]
    refine Or.inr (List.mem_filter.mpr ⟨hmem, ?_⟩)
    simpa using hc

theorem pidsPush_eq_filterMap :
    ∀ (l : List String) (acc : List Nat),
      l.foldl (fun acc line =>
        match parseU32? (rustTrim line) with
        | some pid => acc ++ [pid]
        | none => acc) acc = acc ++ l.filterMap (fun l => parseU32? (rustTrim l)) := by
  intro l
  induction l with
  | nil => intro acc; simp
  | cons x rest ih =>
      intro acc
      cases hx : parseU32? (rustTrim x) <;>
        simp [List.foldl, hx, ih, List.filterMap_cons]

theorem pidsOfContent_eq_filterMap (content : String) :
    pidsOfContent content =
      (rustLines content).filterMap (fun l => parseU32? (rustTrim l)) := by
  unfold pidsOfContent
  rw [pidsPush_eq_filterMap]
  rfl

theorem delete_busy {cg : Cgroup} {fs : FS} {procs : List Nat}
    (hp : cg.get_processes fs = .ok procs) (hne : procs ≠ []) :
    cg.delete fs =
      (.error ⟨.permissionDenied, "Cannot delete cgroup with active processes"⟩, fs) := by
  unfold Cgroup.delete
  rw [hp]
  simp [hne]

theorem delete_v2_empty {cg : Cgroup} {fs fs1 : FS}
    (hv : cg.manager.cgroup_version = .V2)
    (hp : cg.get_processes fs = .ok [])
    (hr : fs.removeDir cg.path = .ok fs1) :
    cg.delete fs = (.ok (), fs1) := by
  unfold Cgroup.delete
  rw [hp]
  simp [hv, hr]

theorem cpuMaxParts_shares (content : String) (st : CpuStats) :
    (cpuMaxParts content st).shares = st.shares := by
  unfold cpuMaxParts
  split
  · split <;> split <;> simp_all <;> split <;> simp_all
  · rfl

theorem cpuStatLines_shares (content : String) (st : CpuStats) :
    (cpuStatLines content st).shares = st.shares := by
  unfold cpuStatLines
  induction rustLines content generalizing st with
  | nil => rfl
  | cons line rest ih =>
      simp only [List.foldl]
      rw [ih]
      cases hs : splitOnceSpace? line with
      | none => rfl
      | some kv =>
          simp only
          split
          · cases hp : parseU64? kv.2 <;> rfl
          · rfl

theorem foldl_createDirAll_mono (root : FPath) (name : String) :
    ∀ (cs : List Controller) (fs : FS) (q : FPath),
      fs.dirExists q = true →
      (cs.foldl (fun f c => f.createDirAll (root ++ [c.asStr, name])) fs).dirExists q
        = true := by
  intro cs
  induction cs with
  | nil => intro fs q h; exact h
  | cons c rest ih =>
      intro fs q h
      exact ih _ _ (createDirAll_mono _ h)

theorem foldl_createDirAll_mem (root : FPath) (name : String) :
    ∀ (cs : List Controller) (fs : FS) (c : Controller), c ∈ cs →
      (cs.foldl (fun f c => f.createDirAll (root ++ [c.asStr, name])) fs).dirExists
        (root ++ [c.asStr, name]) = true := by
  intro cs
  induction cs with
  | nil =>
      intro fs c h
      cases h
  | cons c0 rest ih =>
      intro fs c h
      cases h with
      | head =>
          exact foldl_createDirAll_mono root name rest _ _
            (createDirAll_self _ (by simp))
      | tail _ h => exact ih _ _ h

/-! Claim theorems. -/

/-- C1, counterexample: in the child trace of `Container::run` with the
rootfs `./container/` used by the source's launch configuration, both the
chroot event and the cgroup self-attach event occur, yet the chroot does
NOT precede the cgroup self-attach — the child writes its PID into
`cgroup.procs` before any isolation step, so the claimed order
`chroot before cgroup self-attach` is false. -/
theorem C1_chroot_not_before_cgroup_attach :
    (childRun "./container/").findIdx CEvent.isChroot <
      (childRun "./container/").length ∧
    (childRun "./container/").findIdx CEvent.isJoin <
      (childRun "./container/").length ∧
    ¬ ((childRun "./container/").findIdx CEvent.isChroot <
       (childRun "./container/").findIdx CEvent.isJoin) := by
  decide

/-- C1, amended: in every child trace of `Container::run`, the cgroup
self-attach comes first, then the namespace unshare, then the mounts (all
of which precede the chroot, and none follow it), then the chroot, then
the hostname change, then the exec; in particular the cgroup self-attach
still precedes the exec call, but it precedes (rather than follows) the
chroot and the hostname change. -/
theorem C1_child_event_order (rootfs : String) :
    (childRun rootfs).findIdx CEvent.isJoin <
      (childRun rootfs).findIdx CEvent.isUnshare ∧
    (childRun rootfs).findIdx CEvent.isUnshare <
      (childRun rootfs).findIdx CEvent.isMount ∧
    ((childRun rootfs).take ((childRun rootfs).findIdx CEvent.isChroot)).any
      CEvent.isMount = true ∧
    ((childRun rootfs).drop ((childRun rootfs).findIdx CEvent.isChroot)).all
      (fun e => ! e.isMount) = true ∧
    (childRun rootfs).findIdx CEvent.isChroot <
      (childRun rootfs).findIdx CEvent.isHostname ∧
    (childRun rootfs).findIdx CEvent.isHostname <
      (childRun rootfs).findIdx CEvent.isExec ∧
    (childRun rootfs).findIdx CEvent.isJoin <
      (childRun rootfs).findIdx CEvent.isExec := by
  refine ⟨?_, ?_, rfl, rfl, ?_, ?_, ?_⟩
  · show (0 : Nat) < 1
    decide
  · show (1 : Nat) < 4
    decide
  · show (16 : Nat) < 17
    decide
  · show (17 : Nat) < 18
    decide
  · show (0 : Nat) < 18
    decide

/-- C1, witness: the amended ordering evaluated at the source's rootfs
`./container/`. -/
theorem C1_child_event_order_witness :
    (childRun "./container/").findIdx CEvent.isJoin <
      (childRun "./container/").findIdx CEvent.isUnshare ∧
    (childRun "./container/").findIdx CEvent.isUnshare <
      (childRun "./container/").findIdx CEvent.isMount :=
  ⟨(C1_child_event_order "./container/").1, (C1_child_event_order "./container/").2.1⟩

/-- C2, code evaluation at the failing input: neither the mount plan of
`mount_fs` in `main.rs` for the container id `image-container` nor the
mount plan of `Container::mount_essential_fs` in `container.rs` contains
any step that targets the host root `/` or carries `MS_PRIVATE` (or
`MS_REC`): the private-recursive remount of `/` the claim requires does
not exist in the executed code (in `mount_fs` it is commented out). -/
theorem C2_no_private_remount_of_root :
    ((mount_fs_plan "image-container" ++ mount_essential_fs).all
      (fun s => ! (s.flags.contains MsFlag.MS_PRIVATE) &&
        ! (s.flags.contains MsFlag.MS_REC) && s.target ≠ "/")) = true := by
  decide

/-- C3, counterexample: after fork with parent PID 1000, the parent trace
of `Container::run` contains no cgroup-attach event for any PID and no
cgroup-delete event, though it does block on wait — so the claim that the
parent registers the child PID and then deletes the cgroup is false. -/
theorem C3_parent_neither_attaches_nor_deletes :
    (parentRun 1000).any PEvent.isAttach = false ∧
    (parentRun 1000).any PEvent.isDelete = false ∧
    (parentRun 1000).any PEvent.isWait = true := by
  decide

/-- C3, amended: after fork the parent creates a second cgroup directory
named after its own PID, sets a 200-byte memory limit on it, and blocks
waiting on the child; it never writes any PID into a membership file,
never deletes any cgroup (the wait status is discarded), and the creation
precedes the wait. -/
theorem C3_parent_behavior (ppid : Nat) :
    (parentRun ppid).any PEvent.isAttach = false ∧
    (parentRun ppid).any PEvent.isDelete = false ∧
    PEvent.createCgroupDir (cgroupPathOf (toString ppid)) ∈ parentRun ppid ∧
    PEvent.setMemLimit (cgroupPathOf (toString ppid)) 200 ∈ parentRun ppid ∧
    (parentRun ppid).findIdx PEvent.isCreate <
      (parentRun ppid).findIdx PEvent.isWait := by
  refine ⟨rfl, rfl, ?_, ?_, ?_⟩
  · simp [parentRun]
  · simp [parentRun]
  · show (0 : Nat) < 2
    decide

/-- C3, witness: the amended parent behavior evaluated at parent PID
1000. -/
theorem C3_parent_behavior_witness :
    (parentRun 1000).any PEvent.isAttach = false ∧
    PEvent.createCgroupDir (cgroupPathOf (toString 1000)) ∈ parentRun 1000 :=
  ⟨(C3_parent_behavior 1000).1, (C3_parent_behavior 1000).2.2.1⟩

/-- C4, counterexample: on a V2 cgroup whose membership file holds the
parsable PID 42, `delete` does fail and leaves the state intact, but the
error kind it returns is `PermissionDenied`, not `ResourceBusy`. -/
theorem C4_busy_delete_error_is_permission_denied :
    pidsOfContent "42\n" ≠ [] ∧
    (exCgV2.delete exFsBusy).1 =
      .error ⟨.permissionDenied, "Cannot delete cgroup with active processes"⟩ ∧
    (exCgV2.delete exFsBusy).2 = exFsBusy ∧
    ErrorKind.permissionDenied ≠ ErrorKind.resourceBusy := by
  decide

/-- C4, amended: whenever the membership file lists at least one parsable
process, `delete` fails with a `PermissionDenied`-kind error (message
`Cannot delete cgroup with active processes`) and leaves the state
untouched; when membership is empty, under V2 it removes the single
backing directory, and under V1 it removes the group's existing
subdirectories under the six hard-coded controllers (memory, cpu, cpuset,
blkio, devices, freezer) but not under `net_cls`; a retried delete after
membership becomes empty succeeds. -/
theorem C4_delete_behavior :
    (∀ (cg : Cgroup) (fs : FS) (procs : List Nat),
      cg.get_processes fs = .ok procs → procs ≠ [] →
      cg.delete fs =
        (.error ⟨.permissionDenied, "Cannot delete cgroup with active processes"⟩, fs)) ∧
    (∀ (cg : Cgroup) (fs fs1 : FS),
      cg.manager.cgroup_version = .V2 →
      cg.get_processes fs = .ok [] →
      fs.removeDir cg.path = .ok fs1 →
      cg.delete fs = (.ok (), fs1) ∧ fs1.dirExists cg.path = false) ∧
    ((exCgV1.delete exFsV1).1 = .ok () ∧
      (exCgV1.delete exFsV1).2.dirExists (exRoot ++ ["memory", "g"]) = false ∧
      (exCgV1.delete exFsV1).2.dirExists (exRoot ++ ["cpu", "g"]) = false) ∧
    ((exCgNet.delete exFsNet).1 = .ok () ∧
      (exCgNet.delete exFsNet).2.dirExists (exRoot ++ ["net_cls", "g"]) = true) ∧
    ((exCgV2.delete exFsIdle).1 = .ok () ∧
      (exCgV2.delete exFsIdle).2.dirExists (exRoot ++ ["grp"]) = false) := by
  refine ⟨?_, ?_, by decide, by decide, by decide⟩
  · intro cg fs procs hp hne
    exact delete_busy hp hne
  · intro cg fs fs1 hv hp hr
    exact ⟨delete_v2_empty hv hp hr, removeDir_ok_not_dirExists hr⟩

/-- C4, witness: the amended behavior instantiated on concrete states —
the busy clause at `exFsBusy` (membership `42`) and the empty-membership
removal clause at `exFsIdle`. -/
theorem C4_delete_behavior_witness :
    exCgV2.delete exFsBusy =
      (.error ⟨.permissionDenied, "Cannot delete cgroup with active processes"⟩, exFsBusy) ∧
    exCgV2.delete exFsIdle =
      (.ok (), { files := [], dirs := [["sys"], ["sys", "fs"], ["sys", "fs", "cgroup"]] }) :=
  ⟨C4_delete_behavior.1 exCgV2 exFsBusy [42] (by decide) (by decide),
    (C4_delete_behavior.2.1 exCgV2 exFsIdle
      { files := [], dirs := [["sys"], ["sys", "fs"], ["sys", "fs", "cgroup"]] }
      rfl (by decide) (by decide)).1⟩

/-- C8: for every filesystem state and every handle, the memory and CPU
statistics reads return a result, never an error; with no readable files
at all, every field is left at its default (absent for the optional
fields). -/
theorem C8_stats_reads_are_total (cg : Cgroup) (fs : FS) :
    (∃ ms, cg.get_memory_stats fs = .ok ms) ∧
    (∃ cs, cg.get_cpu_stats fs = .ok cs) ∧
    (fs.files = [] →
      cg.get_memory_stats fs = .ok {} ∧ cg.get_cpu_stats fs = .ok {}) := by
  obtain ⟨name, path, croot, ver⟩ := cg
  obtain ⟨files, dirs⟩ := fs
  cases ver
  case V1 =>
    refine ⟨⟨_, rfl⟩, ⟨_, rfl⟩, ?_⟩
    intro h
    simp only at h
    subst h
    exact ⟨rfl, rfl⟩
  case V2 =>
    refine ⟨⟨_, rfl⟩, ⟨_, rfl⟩, ?_⟩
    intro h
    simp only at h
    subst h
    exact ⟨rfl, rfl⟩

/-- C8, witness: the reads applied to a state with an empty file store
yield the default statistics. -/
theorem C8_stats_reads_are_total_witness :
    exCgV2.get_memory_stats ⟨[], exBaseDirs⟩ = .ok {} ∧
    exCgV2.get_cpu_stats ⟨[], exBaseDirs⟩ = .ok {} :=
  (C8_stats_reads_are_total exCgV2 ⟨[], exBaseDirs⟩).2.2 rfl

/-- C9: protocol detection returns V2 exactly when the marker file
`cgroup.controllers` exists directly under the probed root, V1 exactly
otherwise, and — the probe being a pure read — detecting twice on the
same state gives the same result. -/
theorem C9_detect_protocol (fs : FS) (root : FPath) :
    ((CgroupManager.with_root fs root).cgroup_version = .V2 ↔
      fs.pathExists (root ++ ["cgroup.controllers"]) = true) ∧
    ((CgroupManager.with_root fs root).cgroup_version = .V1 ↔
      fs.pathExists (root ++ ["cgroup.controllers"]) = false) ∧
    (CgroupManager.with_root fs root).cgroup_version =
      (CgroupManager.with_root fs root).cgroup_version := by
  unfold CgroupManager.with_root
  cases h : fs.pathExists (root ++ ["cgroup.controllers"]) <;> simp [h]

/-- C9, witness: detection at a marker-bearing state yields V2, and at a
marker-free state yields V1. -/
theorem C9_detect_protocol_witness :
    (CgroupManager.with_root exFsMarker exRoot).cgroup_version = .V2 ∧
    (CgroupManager.with_root exFsIdle exRoot).cgroup_version = .V1 :=
  ⟨(C9_detect_protocol exFsMarker exRoot).1.mpr (by decide),
    (C9_detect_protocol exFsIdle exRoot).2.1.mpr (by decide)⟩

/-- C10: `get_processes` returns exactly the lines of the membership file
that parse as unsigned 32-bit integers, skipping unparsable lines without
error; therefore a membership file holding only unparsable text counts as
empty for `delete`, and directory removal proceeds. -/
theorem C10_get_processes_skips_unparsable (fs : FS) (cg : Cgroup)
    (content : String)
    (hc : fs.fileContent? (cg.path ++ ["cgroup.procs"]) = some content) :
    cg.get_processes fs =
      .ok ((rustLines content).filterMap (fun l => parseU32? (rustTrim l))) ∧
    (cg.manager.cgroup_version = .V2 →
      (rustLines content).filterMap (fun l => parseU32? (rustTrim l)) = [] →
      ∀ fs1, fs.removeDir cg.path = .ok fs1 →
        cg.delete fs = (.ok (), fs1) ∧ fs1.dirExists cg.path = false) := by
  have hget : cg.get_processes fs = .ok (pidsOfContent content) := by
    unfold Cgroup.get_processes FS.readToString
    rw [hc]
  constructor
  · rw [hget, pidsOfContent_eq_filterMap]
  · intro hv hnil fs1 hr
    have hempty : cg.get_processes fs = .ok [] := by
      rw [hget, pidsOfContent_eq_filterMap, hnil]
    exact ⟨delete_v2_empty hv hempty hr, removeDir_ok_not_dirExists hr⟩

/-- C10, witness: on a membership file holding only `garbage` and `xyz`,
`get_processes` returns the empty list and `delete` removes the backing
directory. -/
theorem C10_get_processes_skips_unparsable_witness :
    exCgV2.get_processes exFsGarbage =
      .ok ((rustLines "garbage\nxyz\n").filterMap (fun l => parseU32? (rustTrim l))) ∧
    exCgV2.delete exFsGarbage =
      (.ok (), { files := [], dirs := [["sys"], ["sys", "fs"], ["sys", "fs", "cgroup"]] }) :=
  ⟨(C10_get_processes_skips_unparsable exFsGarbage exCgV2 "garbage\nxyz\n"
      (by decide)).1,
    ((C10_get_processes_skips_unparsable exFsGarbage exCgV2 "garbage\nxyz\n"
      (by decide)).2 rfl (by decide)
      { files := [], dirs := [["sys"], ["sys", "fs"], ["sys", "fs", "cgroup"]] }
      (by decide)).1⟩

/-- C5: within the `u64` range, `set_cpu_shares` writes
`shares * 100 / 1024` (flooring division) to `cpu.weight` under V2 and the
unconverted value to `cpu.shares` under V1; the V2 stats read applies the
reverse conversion `weight * 1024 / 100`; and the shares-to-weight-to-
shares round trip can only lose by floor truncation, never exceed the
original. -/
theorem C5_cpu_shares_conversion (shares : Nat) (h : shares * 100 < 2 ^ 64) :
    shares_to_weight shares = shares * 100 / 1024 ∧
    (∀ w : Nat, w * 1024 < 2 ^ 64 → weight_to_shares w = w * 1024 / 100) ∧
    (∀ (fs : FS) (cg : Cgroup), cg.manager.cgroup_version = .V2 →
      cg.set_cpu_shares fs shares =
        fs.writeFile (cg.path ++ ["cpu.weight"])
          (toString (shares * 100 / 1024))) ∧
    (∀ (fs : FS) (cg : Cgroup), cg.manager.cgroup_version = .V1 →
      cg.set_cpu_shares fs shares =
        fs.writeFile (cg.manager.cgroup_root ++ ["cpu", cg.name] ++ ["cpu.shares"])
          (toString shares)) ∧
    (∀ (fs : FS) (cg : Cgroup) (content : String) (w : Nat),
      cg.manager.cgroup_version = .V2 →
      fs.fileContent? (cg.path ++ ["cpu.weight"]) = some content →
      parseU64? (rustTrim content) = some w →
      ∃ st, cg.get_cpu_stats fs = .ok st ∧
        st.shares = some (weight_to_shares w)) ∧
    weight_to_shares (shares_to_weight shares) ≤ shares := by
  have hmod : shares * 100 % 2 ^ 64 = shares * 100 := Nat.mod_eq_of_lt h
  have hmod2 : shares * 100 % 18446744073709551616 = shares * 100 := hmod
  refine ⟨?_, ?_, ?_, ?_, ?_, ?_⟩
  · unfold shares_to_weight
    rw [hmod]
  · intro w hw
    unfold weight_to_shares
    rw [Nat.mod_eq_of_lt hw]
  · intro fs cg hv
    simp [Cgroup.set_cpu_shares, hv, shares_to_weight, hmod2]
  · intro fs cg hv
    simp [Cgroup.set_cpu_shares, hv, Cgroup.get_controller_path, Controller.asStr]
  · intro fs cg content w hv hcont hw
    have h1 : fs.readToString (cg.path ++ ["cpu.weight"]) = .ok content := by
      unfold FS.readToString
      rw [hcont]
    have hver : cg.get_cpu_stats fs = cg.get_cpu_stats_v2 fs := by
      unfold Cgroup.get_cpu_stats
      rw [hv]
    rw [hver]
    unfold Cgroup.get_cpu_stats_v2
    simp only [h1, hw]
    refine ⟨_, rfl, ?_⟩
    cases h2 : fs.readToString (cg.path ++ ["cpu.max"]) <;>
      cases h3 : fs.readToString (cg.path ++ ["cpu.stat"]) <;>
        simp [h2, h3, cpuMaxParts_shares, cpuStatLines_shares]
  · unfold weight_to_shares shares_to_weight
    rw [hmod]
    have h2 : shares * 100 / 1024 * 1024 ≤ shares * 100 := Nat.div_mul_le_self _ _
    rw [Nat.mod_eq_of_lt (lt_of_le_of_lt h2 h)]
    calc shares * 100 / 1024 * 1024 / 100 ≤ shares * 100 / 100 :=
          Nat.div_le_div_right h2
      _ = shares := Nat.mul_div_cancel shares (by norm_num)

/-- C5, witness: at 513 shares the conversion floors to weight 50 and the
round trip returns 512, strictly below the original, and the V2 stats
read of a weight file holding `200` reports `200 * 1024 / 100 = 2048`
shares. -/
theorem C5_cpu_shares_conversion_witness :
    shares_to_weight 513 = 513 * 100 / 1024 ∧
    weight_to_shares (shares_to_weight 513) ≤ 513 ∧
    (∃ st, exCgV2.get_cpu_stats exFsWeight = .ok st ∧
      st.shares = some (weight_to_shares 200)) :=
  ⟨(C5_cpu_shares_conversion 513 (by decide)).1,
    (C5_cpu_shares_conversion 513 (by decide)).2.2.2.2.2,
    (C5_cpu_shares_conversion 513 (by decide)).2.2.2.2.1 exFsWeight exCgV2
      "200" 200 rfl (by decide) (by decide)⟩

/-- C6: for negative quotas, `set_cpu_quota` under V2 writes the literal
string `max` into `cpu.max`, and under V1 writes the unconverted negative
integer to `cpu.cfs_quota_us` and the period to `cpu.cfs_period_us`; for
non-negative quotas under V2 it writes `quota period`. -/
theorem C6_cpu_quota_formats (quota_us : Int) (period_us : Nat) :
    (∀ (fs : FS) (cg : Cgroup), cg.manager.cgroup_version = .V2 →
      quota_us < 0 →
      cg.set_cpu_quota fs quota_us period_us =
        fs.writeFile (cg.path ++ ["cpu.max"]) "max") ∧
    (∀ (fs : FS) (cg : Cgroup), cg.manager.cgroup_version = .V2 →
      0 ≤ quota_us →
      cg.set_cpu_quota fs quota_us period_us =
        fs.writeFile (cg.path ++ ["cpu.max"])
          (toString quota_us ++ " " ++ toString period_us)) ∧
    (∀ (fs : FS) (cg : Cgroup) (fs1 : FS), cg.manager.cgroup_version = .V1 →
      cg.set_cpu_quota fs quota_us period_us = .ok fs1 →
      fs1.fileContent?
          (cg.manager.cgroup_root ++ ["cpu", cg.name] ++ ["cpu.cfs_quota_us"]) =
        some (toString quota_us) ∧
      fs1.fileContent?
          (cg.manager.cgroup_root ++ ["cpu", cg.name] ++ ["cpu.cfs_period_us"]) =
        some (toString period_us)) := by
  refine ⟨?_, ?_, ?_⟩
  · intro fs cg hv hneg
    simp [Cgroup.set_cpu_quota, hv, hneg]
  · intro fs cg hv hge
    simp [Cgroup.set_cpu_quota, hv, not_lt.mpr hge]
  · intro fs cg fs1 hv hrun
    have hbase : cg.get_controller_path .Cpu =
        .ok (cg.manager.cgroup_root ++ ["cpu", cg.name]) := by
      unfold Cgroup.get_controller_path
      rw [hv]
      rfl
    unfold Cgroup.set_cpu_quota at hrun
    rw [hv, hbase] at hrun
    simp only at hrun
    cases hw1 : fs.writeFile
        (cg.manager.cgroup_root ++ ["cpu", cg.name] ++ ["cpu.cfs_quota_us"])
        (toString quota_us) with
    | error e =>
        rw [hw1] at hrun
        exact absurd hrun (by simp)
    | ok fsa =>
        rw [hw1] at hrun
        simp only at hrun
        have hne : cg.manager.cgroup_root ++ ["cpu", cg.name] ++ ["cpu.cfs_quota_us"] ≠
            cg.manager.cgroup_root ++ ["cpu", cg.name] ++ ["cpu.cfs_period_us"] := by
          simp
        refine ⟨?_, writeFile_ok_content hrun⟩
        rw [writeFile_ok_content_other hne hrun]
        exact writeFile_ok_content hw1

/-- C6, witness: quota `-1`, period `100000` — under V2 the write is the
literal `max`, and the V1 run on `exFsV1` leaves `-1` in
`cpu.cfs_quota_us` and `100000` in `cpu.cfs_period_us`. -/
theorem C6_cpu_quota_formats_witness :
    exCgV2.set_cpu_quota exFsIdle (-1) 100000 =
      exFsIdle.writeFile (exCgV2.path ++ ["cpu.max"]) "max" ∧
    exFsQuota.fileContent?
        (exCgV1.manager.cgroup_root ++ ["cpu", exCgV1.name] ++ ["cpu.cfs_quota_us"]) =
      some (toString (-1 : Int)) :=
  ⟨(C6_cpu_quota_formats (-1) 100000).1 exFsIdle exCgV2 rfl (by decide),
    ((C6_cpu_quota_formats (-1) 100000).2.2 exFsV1 exCgV1 exFsQuota rfl
      (by decide)).1⟩

/-- C7: creating a cgroup with an empty controller list fails with the
invalid-configuration error under V1 and succeeds under V2 with the file
store untouched (nothing is written to `cgroup.subtree_control`); with a
non-empty list, V1 creates one subdirectory per controller under that
controller's hierarchy and anchors the handle at the first controller's
path, while V2 creates one subdirectory under the unified root and writes
the space-separated `+controller` token list to that group's
`cgroup.subtree_control`. -/
theorem C7_create_cgroup (fs : FS) (root : FPath) (name : String) :
    (CgroupManager.mk root .V1).create_cgroup fs name [] =
      .error ⟨.invalidInput, "At least one controller required for v1"⟩ ∧
    (∃ cg, (CgroupManager.mk root .V2).create_cgroup fs name [] =
      .ok (cg, fs.createDirAll (root ++ [name])) ∧
      (fs.createDirAll (root ++ [name])).files = fs.files) ∧
    (∀ (c0 : Controller) (rest : List Controller), ∃ cg fs1,
      (CgroupManager.mk root .V1).create_cgroup fs name (List.cons c0 rest) =
        .ok (cg, fs1) ∧
      cg.path = root ++ [c0.asStr, name] ∧
      ∀ c, c ∈ List.cons c0 rest →
        fs1.dirExists (root ++ [c.asStr, name]) = true) ∧
    (∀ controllers : List Controller, controllers ≠ [] →
      ∃ cg fs1,
        (CgroupManager.mk root .V2).create_cgroup fs name controllers =
          .ok (cg, fs1) ∧
        cg.path = root ++ [name] ∧
        fs1.fileContent? ((root ++ [name]) ++ ["cgroup.subtree_control"]) =
          some (String.intercalate " "
            (controllers.map (fun c => "+" ++ c.asStr)))) := by
  refine ⟨rfl, ⟨_, rfl, rfl⟩, ?_, ?_⟩
  · intro c0 rest
    refine ⟨_, _, rfl, rfl, ?_⟩
    intro c hc
    exact foldl_createDirAll_mem root name _ fs c hc
  · intro controllers hne
    cases controllers with
    | nil => exact absurd rfl hne
    | cons c0 rest =>
        have hdir : (fs.createDirAll (root ++ [name])).dirExists (root ++ [name])
            = true := createDirAll_self _ (by simp)
        have hdrop : ((root ++ [name]) ++ ["cgroup.subtree_control"]).dropLast =
            root ++ [name] := List.dropLast_concat
        obtain ⟨fs2, hw⟩ : ∃ fs2,
            (fs.createDirAll (root ++ [name])).writeFile
              ((root ++ [name]) ++ ["cgroup.subtree_control"])
              (String.intercalate " "
                ((List.cons c0 rest).map (fun c => "+" ++ c.asStr))) = .ok fs2 := by
          unfold FS.writeFile
          rw [hdrop, hdir]
          exact ⟨_, rfl⟩
        refine ⟨Cgroup.mk name (root ++ [name]) (CgroupManager.mk root .V2),
          fs2, ?_, rfl, writeFile_ok_content hw⟩
        unfold CgroupManager.create_cgroup CgroupManager.create_cgroup_v2
        simp at hw
        simp [List.isEmpty, hw]

/-- C7, witness: over the empty-store state at the standard root, the V1
empty-list create errors, the V2 empty-list create leaves the file store
empty, and a V2 create with memory and cpu writes `+memory +cpu`. -/
theorem C7_create_cgroup_witness :
    (CgroupManager.mk exRoot .V1).create_cgroup ⟨[], exBaseDirs⟩ "g" [] =
      .error ⟨.invalidInput, "At least one controller required for v1"⟩ ∧
    (∃ cg fs1,
      (CgroupManager.mk exRoot .V2).create_cgroup ⟨[], exBaseDirs⟩ "g"
          [.Memory, .Cpu] = .ok (cg, fs1) ∧
      cg.path = exRoot ++ ["g"] ∧
      fs1.fileContent? ((exRoot ++ ["g"]) ++ ["cgroup.subtree_control"]) =
        some (String.intercalate " "
          ([Controller.Memory, Controller.Cpu].map (fun c => "+" ++ c.asStr)))) :=
  ⟨(C7_create_cgroup ⟨[], exBaseDirs⟩ exRoot "g").1,
    (C7_create_cgroup ⟨[], exBaseDirs⟩ exRoot "g").2.2.2 [.Memory, .Cpu]
      (by decide)⟩

end Woody
